import Mathlib

/-!
Shallow embedding of the session-establishment core of libaxolotl
(src/sessionbuilder.cpp), together with the store interfaces and value
objects it consumes.  The four SessionBuilder entry points are modelled as
pure functions over an explicit store state; every store interaction is
additionally logged in an event trace so that ordering and frame
properties ("the trust check happens before any other store read",
"the only mutation is one storeSession") can be stated.

Conventions:
- byte arrays (QByteArray) are lists of naturals;
- Qt shared pointers disappear: values are passed and returned;
- exceptions become an Except result; the store state and the trace are
  returned alongside it in a plain tuple;
- randomness (Curve::generateKeyPair, KeyHelper::getRandomFFFF) is passed
  in as explicit arguments;
- the C++ signature primitives (Curve::verifySignature,
  Curve::calculateSignature) are fields of an abstract Crypto record.
-/

namespace Axolotl

/-! ## Keys and addresses -/

/-- A Curve25519 public key; only its serialized bytes matter here. -/
structure DjbECPublicKey where
  bytes : List Nat
deriving DecidableEq, Repr, Inhabited

/-- QByteArray serialize() of a public key. -/
def DjbECPublicKey.serialize (k : DjbECPublicKey) : List Nat := k.bytes

/-- A Curve25519 private key. -/
structure ECPrivateKey where
  bytes : List Nat
deriving DecidableEq, Repr, Inhabited

/-- An ephemeral Curve25519 keypair. -/
structure ECKeyPair where
  publicKey : DjbECPublicKey
  privateKey : ECPrivateKey
deriving DecidableEq, Repr, Inhabited

/-- A long-lived identity public key (wraps a Curve25519 public key). -/
structure IdentityKey where
  publicKey : DjbECPublicKey
deriving DecidableEq, Repr, Inhabited

/-- The local long-lived identity keypair. -/
structure IdentityKeyPair where
  publicKey : IdentityKey
  privateKey : ECPrivateKey
deriving DecidableEq, Repr, Inhabited

/-- A remote session counterpart: (name, device id). -/
structure AxolotlAddress where
  name : String
  deviceId : Nat
deriving DecidableEq, Repr, Inhabited

/-- The signature primitives the builder calls (Curve::verifySignature and
Curve::calculateSignature); external cryptography, treated as pure
functions of the argument bytes. -/
structure Crypto where
  verifySignature : DjbECPublicKey → List Nat → List Nat → Bool
  calculateSignature : ECPrivateKey → List Nat → List Nat

/-! ## Constants -/

/-- Modelled from the spec: MAX_VALUE is the implementation-wide largest
unsigned pre-key id, used as the "absent" sentinel (util/medium.h is not
part of the sources).  Its exact value is irrelevant to the theorems
below beyond being a fixed nonnegative constant. -/
def Medium.MAX_VALUE : Int := 0xFFFFFF

/-- Modelled from the spec: CURRENT_VERSION = 3 (CiphertextMessage is
external). -/
def CiphertextMessage.CURRENT_VERSION : Nat := 3

/-! ## Error taxonomy (the exception headers of the repository) -/

/-- The tagged failure variants surfaced at the entry points. -/
inductive WhisperError where
  | untrustedIdentity (message : String)
  | invalidKey (message : String)
  | invalidKeyId (message : String)
  | invalidMessage (message : String)
  | staleKeyExchange (message : String)
  | duplicateMessage (message : String)
  | noSession (message : String)
deriving DecidableEq, Repr

/-! ## Messages and bundles (wire value objects, interfaces only) -/

/-- First inbound protocol message of a session ("Bob" side input).
A missing pre-key id is represented by a negative value or by the
MAX_VALUE sentinel; the builder code checks both, which is exactly the
ambiguity some claims are about, so the field is an Int here. -/
structure PreKeyWhisperMessage where
  messageVersion : Nat
  registrationId : Nat
  preKeyId : Int
  signedPreKeyId : Int
  baseKey : DjbECPublicKey
  identityKey : IdentityKey
deriving DecidableEq, Repr, Inhabited

/-- A directory-published pre-key bundle ("Alice" side input).  An absent
signed pre-key or one-time pre-key is a key with empty serialization,
matching the isEmpty() checks in the source. -/
structure PreKeyBundle where
  registrationId : Nat
  deviceId : Nat
  preKeyId : Int
  preKey : DjbECPublicKey
  signedPreKeyId : Int
  signedPreKey : DjbECPublicKey
  signedPreKeySignature : List Nat
  identityKey : IdentityKey
deriving DecidableEq, Repr, Inhabited

/-- Interactive key-exchange frame. -/
structure KeyExchangeMessage where
  version : Nat
  maxVersion : Nat
  sequence : Nat
  flags : Nat
  baseKey : DjbECPublicKey
  baseKeySignature : List Nat
  ratchetKey : DjbECPublicKey
  identityKey : IdentityKey
deriving DecidableEq, Repr, Inhabited

/-- Modelled from the spec: the KeyExchangeMessage flag bits
(INITIATE = 0x01, RESPONSE = 0x02, SIMULTANEOUS-INITIATE = 0x04; the
class itself is external).  The misspelling is the source's. -/
def KeyExchangeMessage.INITIATE_FLAG : Nat := 0x01

/-- RESPONSE flag bit. -/
def KeyExchangeMessage.RESPONSE_FLAG : Nat := 0x02

/-- SIMULTANEOUS-INITIATE flag bit (source spelling). -/
def KeyExchangeMessage.SIMULTAENOUS_INITIATE_FLAG : Nat := 0x04

/-- Modelled from the spec: the outbound KeyExchangeMessage constructor
used by the builder, taking (version, sequence, flags, baseKey,
baseKeySignature, ratchetKey, identityKey); maxVersion of a locally
built frame is CURRENT_VERSION. -/
def KeyExchangeMessage.create (version sequence flags : Nat)
    (baseKey : DjbECPublicKey) (baseKeySignature : List Nat)
    (ratchetKey : DjbECPublicKey) (identityKey : IdentityKey) :
    KeyExchangeMessage :=
  { version := version
    maxVersion := CiphertextMessage.CURRENT_VERSION
    sequence := sequence
    flags := flags
    baseKey := baseKey
    baseKeySignature := baseKeySignature
    ratchetKey := ratchetKey
    identityKey := identityKey }

/-- Flag test isInitiate(). -/
def KeyExchangeMessage.isInitiate (m : KeyExchangeMessage) : Bool :=
  decide (m.flags &&& KeyExchangeMessage.INITIATE_FLAG ≠ 0)

/-- Flag test isResponse(). -/
def KeyExchangeMessage.isResponse (m : KeyExchangeMessage) : Bool :=
  decide (m.flags &&& KeyExchangeMessage.RESPONSE_FLAG ≠ 0)

/-- Flag test isResponseForSimultaneousInitiate(). -/
def KeyExchangeMessage.isResponseForSimultaneousInitiate (m : KeyExchangeMessage) : Bool :=
  decide (m.flags &&& KeyExchangeMessage.SIMULTAENOUS_INITIATE_FLAG ≠ 0)

/-! ## Ratchet parameter value objects -/

/-- Responder-side inputs to ratchet session init (BobAxolotlParameters),
as assembled by the setter sequence in the source. -/
structure BobAxolotlParameters where
  ourIdentityKey : IdentityKeyPair
  ourSignedPreKey : ECKeyPair
  ourRatchetKey : ECKeyPair
  ourOneTimePreKey : Option ECKeyPair
  theirIdentityKey : IdentityKey
  theirBaseKey : DjbECPublicKey
deriving DecidableEq, Repr

/-- Initiator-side inputs (AliceAxolotlParameters). -/
structure AliceAxolotlParameters where
  ourBaseKey : ECKeyPair
  ourIdentityKey : IdentityKeyPair
  theirIdentityKey : IdentityKey
  theirSignedPreKey : DjbECPublicKey
  theirRatchetKey : DjbECPublicKey
  theirOneTimePreKey : Option DjbECPublicKey
deriving DecidableEq, Repr

/-- Simultaneous-exchange inputs (SymmetricAxolotlParameters). -/
structure SymmetricAxolotlParameters where
  ourBaseKey : ECKeyPair
  ourRatchetKey : ECKeyPair
  ourIdentityKey : IdentityKeyPair
  theirBaseKey : DjbECPublicKey
  theirRatchetKey : DjbECPublicKey
  theirIdentityKey : IdentityKey
deriving DecidableEq, Repr

/-- The three parameter flavors handed to the ratchet initializer. -/
inductive RatchetParams where
  | alice (p : AliceAxolotlParameters)
  | bob (p : BobAxolotlParameters)
  | symmetric (p : SymmetricAxolotlParameters)
deriving DecidableEq, Repr

/-! ## Session state and record -/

/-- Record of an outbound KeyExchangeMessage awaiting the peer's
response. -/
structure PendingKeyExchange where
  sequence : Nat
  baseKey : ECKeyPair
  ratchetKey : ECKeyPair
  identityKey : IdentityKeyPair
deriving DecidableEq, Repr, Inhabited

/-- Modelled from the spec: SessionState (external to the sources; §3 of
the spec lists exactly these relevant fields).  The ratchet root/chain
keys owned by the ratchet module are represented by recording the version
and parameters the initializer was invoked with. -/
structure SessionState where
  sessionVersion : Nat := 2
  localRegistrationId : Nat := 0
  remoteRegistrationId : Nat := 0
  aliceBaseKey : List Nat := []
  unacknowledgedPreKeyMessage : Option (Int × Int × DjbECPublicKey) := none
  pendingKeyExchange : Option PendingKeyExchange := none
  ratchet : Option (Nat × RatchetParams) := none
deriving DecidableEq, Repr, Inhabited

/-- hasPendingKeyExchange(). -/
def SessionState.hasPendingKeyExchange (s : SessionState) : Bool :=
  s.pendingKeyExchange.isSome

/-- getPendingKeyExchangeSequence(). -/
def SessionState.getPendingKeyExchangeSequence (s : SessionState) : Nat :=
  (s.pendingKeyExchange.map (fun p => p.sequence)).getD 0

/-- getPendingKeyExchangeBaseKey(). -/
def SessionState.getPendingKeyExchangeBaseKey (s : SessionState) : ECKeyPair :=
  (s.pendingKeyExchange.map (fun p => p.baseKey)).getD default

/-- getPendingKeyExchangeRatchetKey(). -/
def SessionState.getPendingKeyExchangeRatchetKey (s : SessionState) : ECKeyPair :=
  (s.pendingKeyExchange.map (fun p => p.ratchetKey)).getD default

/-- getPendingKeyExchangeIdentityKey(). -/
def SessionState.getPendingKeyExchangeIdentityKey (s : SessionState) : IdentityKeyPair :=
  (s.pendingKeyExchange.map (fun p => p.identityKey)).getD default

/-- Observer: the one-time pre-key inside the recorded Bob parameters of
the state's ratchet initialization, if any. -/
def SessionState.bobOneTimePreKey (s : SessionState) : Option ECKeyPair :=
  match s.ratchet with
  | some (_, .bob p) => p.ourOneTimePreKey
  | _ => none

/-- Whether a state matches a given (session version, Alice base key)
fingerprint. -/
def SessionState.matchesState (s : SessionState) (version : Nat) (aliceBaseKey : List Nat) : Bool :=
  decide (s.sessionVersion = version) && decide (s.aliceBaseKey = aliceBaseKey)

/-- Modelled from the spec: SessionRecord (external to the sources; §3
and §4.3): the current state, a bounded archive of superseded states,
and a freshness flag that is true until a state is installed. -/
structure SessionRecord where
  sessionState : SessionState := {}
  previousStates : List SessionState := []
  fresh : Bool := true
deriving DecidableEq, Repr, Inhabited

/-- isFresh(). -/
def SessionRecord.isFresh (r : SessionRecord) : Bool := r.fresh

/-- Modelled from the spec: archiveCurrentState() pushes the current state
into the archive (capacity 40, oldest evicted) and installs a blank
current state. -/
def SessionRecord.archiveCurrentState (r : SessionRecord) : SessionRecord :=
  { sessionState := {}
    previousStates := (r.sessionState :: r.previousStates).take 40
    fresh := false }

/-- Modelled from the spec: hasSessionState(version, aliceBaseKey) is true
iff some state in current plus archive matches both fields (§4.3). -/
def SessionRecord.hasSessionState (r : SessionRecord) (version : Nat) (aliceBaseKey : List Nat) : Bool :=
  r.sessionState.matchesState version aliceBaseKey ||
    r.previousStates.any (fun s => s.matchesState version aliceBaseKey)

/-- Modelled from the spec: the external ratchet initializer
(RatchetingSession) is a pure function that, given parameters and a
version, populates the session state's version and root/chain keys; the
derived key material is represented by recording the inputs. -/
def RatchetingSession.initializeSession (s : SessionState) (version : Nat)
    (parameters : RatchetParams) : SessionState :=
  { s with sessionVersion := version, ratchet := some (version, parameters) }

/-! ## Association lists and the stores -/

/-- Association-list lookup (leftmost binding wins). -/
def alookup {α β : Type} [DecidableEq α] (a : α) : List (α × β) → Option β
  | [] => none
  | (x, b) :: rest => if x = a then some b else alookup a rest

/-- Association-list update or insert. -/
def aupdate {α β : Type} [DecidableEq α] (a : α) (b : β) : List (α × β) → List (α × β)
  | [] => [(a, b)]
  | (x, b0) :: rest => if x = a then (x, b) :: rest else (x, b0) :: aupdate a b rest

/-- The combined durable state behind the four store interfaces of §4.1.
Pre-key and signed-pre-key records are reduced to the keypair the
builder extracts from them via getKeyPair(). -/
structure Stores where
  sessions : List (AxolotlAddress × SessionRecord)
  preKeys : List (Int × ECKeyPair)
  signedPreKeys : List (Int × ECKeyPair)
  identityKeyPair : IdentityKeyPair
  localRegistrationId : Nat
  trustedIdentities : List (String × IdentityKey)
deriving DecidableEq, Repr

/-- Modelled from the spec: isTrustedIdentity(name, key) is true if the
name is unknown or the pinned key matches (§4.1). -/
def Stores.isTrustedIdentity (st : Stores) (name : String) (key : IdentityKey) : Bool :=
  match alookup name st.trustedIdentities with
  | none => true
  | some pinned => decide (pinned = key)

/-- Modelled from the spec: saveIdentity pins (or re-pins) the key for a
name. -/
def Stores.saveIdentity (st : Stores) (name : String) (key : IdentityKey) : Stores :=
  { st with trustedIdentities := aupdate name key st.trustedIdentities }

/-- Modelled from the spec: loadSession returns the stored record or a
fresh blank one (§4.1). -/
def Stores.loadSession (st : Stores) (addr : AxolotlAddress) : SessionRecord :=
  (alookup addr st.sessions).getD {}

/-- containsSession(addr). -/
def Stores.containsSession (st : Stores) (addr : AxolotlAddress) : Bool :=
  (alookup addr st.sessions).isSome

/-- storeSession(addr, record). -/
def Stores.storeSession (st : Stores) (addr : AxolotlAddress) (record : SessionRecord) : Stores :=
  { st with sessions := aupdate addr record st.sessions }

/-- containsPreKey(id). -/
def Stores.containsPreKey (st : Stores) (preKeyId : Int) : Bool :=
  (alookup preKeyId st.preKeys).isSome

/-- Modelled from the spec: loadPreKey fails with InvalidKeyId when the id
is absent (§4.1); getKeyPair() of the record is fused in. -/
def Stores.loadPreKey (st : Stores) (preKeyId : Int) : Except WhisperError ECKeyPair :=
  match alookup preKeyId st.preKeys with
  | some kp => .ok kp
  | none => .error (.invalidKeyId "No such prekeyRecord!")

/-- Modelled from the spec: loadSignedPreKey, analogous to loadPreKey. -/
def Stores.loadSignedPreKey (st : Stores) (signedPreKeyId : Int) : Except WhisperError ECKeyPair :=
  match alookup signedPreKeyId st.signedPreKeys with
  | some kp => .ok kp
  | none => .error (.invalidKeyId "No such signedprekeyrecord!")

/-! ## Store-interaction trace -/

/-- One observable interaction with a store interface.  Queries and loads
are reads; saveIdentity and storeSession are the mutations. -/
inductive StoreEvent where
  | isTrustedIdentityEv (name : String) (key : IdentityKey)
  | saveIdentityEv (name : String) (key : IdentityKey)
  | loadSessionEv (addr : AxolotlAddress)
  | containsSessionEv (addr : AxolotlAddress)
  | storeSessionEv (addr : AxolotlAddress)
  | loadPreKeyEv (preKeyId : Int)
  | containsPreKeyEv (preKeyId : Int)
  | loadSignedPreKeyEv (signedPreKeyId : Int)
  | getIdentityKeyPairEv
  | getLocalRegistrationIdEv
deriving DecidableEq, Repr

/-- Whether an event mutates a store. -/
def StoreEvent.isMutation : StoreEvent → Bool
  | .saveIdentityEv _ _ => true
  | .storeSessionEv _ => true
  | _ => false

/-- Whether an event is a one-time pre-key load. -/
def StoreEvent.isLoadPreKey : StoreEvent → Bool
  | .loadPreKeyEv _ => true
  | _ => false

/-! ## SessionBuilder

Each entry point returns (result, updated stores, event trace); the
PreKeyWhisperMessage path additionally returns the caller-owned session
record as it stands on exit, because the C++ mutates it in place and the
caller owns the commit.  The C++ overloads all four entry points on one
name; here they carry distinguishing suffixes. -/

/-- Result of the PreKeyWhisperMessage entry point: the (possibly -1
sentinel) pre-key id to consume, the session record on exit, the stores,
and the trace.  In the C++ the id is returned as ulong, so the literal
-1 wraps to 2^64-1 on the wire; the Int -1 stands for that sentinel. -/
abbrev PKWMResult := Except WhisperError Int × SessionRecord × Stores × List StoreEvent

/-- Common tail of processV3 (source lines 75-101): build the Bob
parameters, archive a non-fresh record, initialize the session, set the
registration ids and the Alice base key, and pick the return value. -/
def SessionBuilder.processV3Finish (record : SessionRecord) (message : PreKeyWhisperMessage)
    (st : Stores) (ourSignedPreKey : ECKeyPair) (oneTimePreKey : Option ECKeyPair)
    (tr : List StoreEvent) : PKWMResult :=
  let parameters : BobAxolotlParameters :=
    { theirBaseKey := message.baseKey
      theirIdentityKey := message.identityKey
      ourIdentityKey := st.identityKeyPair
      ourSignedPreKey := ourSignedPreKey
      ourRatchetKey := ourSignedPreKey
      ourOneTimePreKey := oneTimePreKey }
  let record1 := if record.isFresh then record else record.archiveCurrentState
  let s1 := RatchetingSession.initializeSession record1.sessionState
              message.messageVersion (.bob parameters)
  let s2 := { s1 with
    localRegistrationId := st.localRegistrationId
    remoteRegistrationId := message.registrationId
    aliceBaseKey := message.baseKey.serialize }
  let record2 := { record1 with sessionState := s2, fresh := false }
  let tr2 := tr ++ [.getLocalRegistrationIdEv]
  if message.preKeyId ≠ Medium.MAX_VALUE then
    (.ok message.preKeyId, record2, st, tr2)
  else
    (.ok (-1), record2, st, tr2)

/-- SessionBuilder::processV3 (source lines 67-102). -/
def SessionBuilder.processV3 (record : SessionRecord) (message : PreKeyWhisperMessage)
    (st : Stores) : PKWMResult :=
  if record.hasSessionState message.messageVersion message.baseKey.serialize then
    (.ok (-1), record, st, [])
  else
    match st.loadSignedPreKey message.signedPreKeyId with
    | .error e => (.error e, record, st, [.loadSignedPreKeyEv message.signedPreKeyId])
    | .ok ourSignedPreKey =>
      let tr0 : List StoreEvent :=
        [.loadSignedPreKeyEv message.signedPreKeyId, .getIdentityKeyPairEv]
      if 0 ≤ message.preKeyId then
        match st.loadPreKey message.preKeyId with
        | .error e => (.error e, record, st, tr0 ++ [.loadPreKeyEv message.preKeyId])
        | .ok oneTime =>
          SessionBuilder.processV3Finish record message st ourSignedPreKey (some oneTime)
            (tr0 ++ [.loadPreKeyEv message.preKeyId])
      else
        SessionBuilder.processV3Finish record message st ourSignedPreKey none tr0

/-- Common tail of processV2 (source lines 116-139): load the one-time
pre-key, use it as both signed pre-key and ratchet key, initialize, set
ids and base key, and pick the return value. -/
def SessionBuilder.processV2Finish (record : SessionRecord) (message : PreKeyWhisperMessage)
    (st : Stores) (tr : List StoreEvent) : PKWMResult :=
  match st.loadPreKey message.preKeyId with
  | .error e => (.error e, record, st, tr ++ [.loadPreKeyEv message.preKeyId])
  | .ok ourPreKey =>
    let parameters : BobAxolotlParameters :=
      { ourIdentityKey := st.identityKeyPair
        ourSignedPreKey := ourPreKey
        ourRatchetKey := ourPreKey
        ourOneTimePreKey := none
        theirIdentityKey := message.identityKey
        theirBaseKey := message.baseKey }
    let record1 := if record.isFresh then record else record.archiveCurrentState
    let s1 := RatchetingSession.initializeSession record1.sessionState
                message.messageVersion (.bob parameters)
    let s2 := { s1 with
      localRegistrationId := st.localRegistrationId
      remoteRegistrationId := message.registrationId
      aliceBaseKey := message.baseKey.serialize }
    let record2 := { record1 with sessionState := s2, fresh := false }
    let tr2 := tr ++ [.loadPreKeyEv message.preKeyId, .getIdentityKeyPairEv,
                      .getLocalRegistrationIdEv]
    if message.preKeyId ≠ Medium.MAX_VALUE then
      (.ok message.preKeyId, record2, st, tr2)
    else
      (.ok (-1), record2, st, tr2)

/-- SessionBuilder::processV2 (source lines 104-140).  The containsSession
query is only issued when the containsPreKey query came back false,
mirroring the short-circuit in the source. -/
def SessionBuilder.processV2 (addr : AxolotlAddress) (record : SessionRecord)
    (message : PreKeyWhisperMessage) (st : Stores) : PKWMResult :=
  if message.preKeyId < 0 then
    (.error (.invalidKeyId "V2 message requires one time prekey id!"), record, st, [])
  else
    if st.containsPreKey message.preKeyId = false then
      if st.containsSession addr = true then
        (.ok (-1), record, st,
         [.containsPreKeyEv message.preKeyId, .containsSessionEv addr])
      else
        SessionBuilder.processV2Finish record message st
          [.containsPreKeyEv message.preKeyId, .containsSessionEv addr]
    else
      SessionBuilder.processV2Finish record message st
        [.containsPreKeyEv message.preKeyId]

/-- Tail of SessionBuilder::process(SessionRecord*, PreKeyWhisperMessage):
on a normal sub-call return, pin the identity (source line 63); on a
throw, propagate.  The trust query event is prepended either way. -/
def SessionBuilder.saveAfterPKWM (addr : AxolotlAddress) (message : PreKeyWhisperMessage)
    (out : PKWMResult) (tq : StoreEvent) : PKWMResult :=
  match out with
  | (.error e, record1, st1, tr) => (.error e, record1, st1, tq :: tr)
  | (.ok v, record1, st1, tr) =>
    (.ok v, record1, st1.saveIdentity addr.name message.identityKey,
     tq :: (tr ++ [.saveIdentityEv addr.name message.identityKey]))

/-- SessionBuilder::process(SessionRecord*, PreKeyWhisperMessage)
(source lines 45-65): trust check, dispatch on the message version, and
pin the identity on success. -/
def SessionBuilder.processPreKeyWhisperMessage (addr : AxolotlAddress)
    (record : SessionRecord) (message : PreKeyWhisperMessage) (st : Stores) : PKWMResult :=
  let tq : StoreEvent := .isTrustedIdentityEv addr.name message.identityKey
  if st.isTrustedIdentity addr.name message.identityKey = false then
    (.error (.untrustedIdentity ("Untrusted identity: " ++ addr.name)), record, st, [tq])
  else
    SessionBuilder.saveAfterPKWM addr message
      (if message.messageVersion = 2 then SessionBuilder.processV2 addr record message st
       else if message.messageVersion = 3 then SessionBuilder.processV3 record message st
       else (.error (.invalidMessage "Unknown version"), record, st, []))
      tq

/-- SessionBuilder::process(const PreKeyBundle&) (source lines 142-194).
The freshly generated ourBaseKey is an explicit argument. -/
def SessionBuilder.processPreKeyBundle (crypto : Crypto) (addr : AxolotlAddress)
    (preKey : PreKeyBundle) (ourBaseKey : ECKeyPair) (st : Stores) :
    Except WhisperError Unit × Stores × List StoreEvent :=
  let tq : StoreEvent := .isTrustedIdentityEv addr.name preKey.identityKey
  if st.isTrustedIdentity addr.name preKey.identityKey = false then
    (.error (.untrustedIdentity ("Untrusted identity: " ++ addr.name)), st, [tq])
  else if preKey.signedPreKey.serialize ≠ [] ∧
          crypto.verifySignature preKey.signedPreKey
            preKey.identityKey.publicKey.serialize
            preKey.signedPreKeySignature = false then
    (.error (.invalidKey "Invalid signature on device key!"), st, [tq])
  else if preKey.signedPreKey.serialize = [] ∧ preKey.preKey.serialize = [] then
    (.error (.invalidKey "Both signed and unsigned prekeys are absent!"), st, [tq])
  else
    let supportsV3 := preKey.signedPreKey.serialize ≠ []
    let sessionRecord := st.loadSession addr
    let theirSignedPreKey := if supportsV3 then preKey.signedPreKey else preKey.preKey
    let theirOneTimePreKey := preKey.preKey
    let theirOneTimePreKeyId : Int :=
      if theirOneTimePreKey.serialize = [] then -1 else preKey.preKeyId
    let parameters : AliceAxolotlParameters :=
      { ourBaseKey := ourBaseKey
        ourIdentityKey := st.identityKeyPair
        theirIdentityKey := preKey.identityKey
        theirSignedPreKey := theirSignedPreKey
        theirRatchetKey := theirSignedPreKey
        theirOneTimePreKey := if supportsV3 then some theirOneTimePreKey else none }
    let record1 := if sessionRecord.isFresh then sessionRecord
                   else sessionRecord.archiveCurrentState
    let s1 := RatchetingSession.initializeSession record1.sessionState
                (if supportsV3 then 3 else 2) (.alice parameters)
    let s2 := { s1 with
      unacknowledgedPreKeyMessage :=
        some (theirOneTimePreKeyId, preKey.signedPreKeyId, ourBaseKey.publicKey)
      localRegistrationId := st.localRegistrationId
      remoteRegistrationId := preKey.registrationId
      aliceBaseKey := ourBaseKey.publicKey.serialize }
    let record2 := { record1 with sessionState := s2, fresh := false }
    let st1 := st.storeSession addr record2
    let st2 := st1.saveIdentity addr.name preKey.identityKey
    (.ok (), st2,
     [tq, .loadSessionEv addr, .getIdentityKeyPairEv, .getLocalRegistrationIdEv,
      .storeSessionEv addr, .saveIdentityEv addr.name preKey.identityKey])

/-- SessionBuilder::processInitiate (source lines 227-274).  The fresh
keypairs generated in the no-pending branch are explicit arguments. -/
def SessionBuilder.processInitiate (crypto : Crypto) (addr : AxolotlAddress)
    (message : KeyExchangeMessage) (freshBaseKey freshRatchetKey : ECKeyPair)
    (st : Stores) : Except WhisperError KeyExchangeMessage × Stores × List StoreEvent :=
  let flags0 := KeyExchangeMessage.RESPONSE_FLAG
  let sessionRecord := st.loadSession addr
  if 3 ≤ message.version ∧
     crypto.verifySignature message.identityKey.publicKey message.baseKey.serialize
       message.baseKeySignature = false then
    (.error (.invalidKey "Bad signature!"), st, [.loadSessionEv addr])
  else
    let noPending := sessionRecord.sessionState.hasPendingKeyExchange = false
    let parameters : SymmetricAxolotlParameters :=
      if noPending then
        { ourIdentityKey := st.identityKeyPair
          ourBaseKey := freshBaseKey
          ourRatchetKey := freshRatchetKey
          theirBaseKey := message.baseKey
          theirRatchetKey := message.ratchetKey
          theirIdentityKey := message.identityKey }
      else
        { ourIdentityKey := sessionRecord.sessionState.getPendingKeyExchangeIdentityKey
          ourBaseKey := sessionRecord.sessionState.getPendingKeyExchangeBaseKey
          ourRatchetKey := sessionRecord.sessionState.getPendingKeyExchangeRatchetKey
          theirBaseKey := message.baseKey
          theirRatchetKey := message.ratchetKey
          theirIdentityKey := message.identityKey }
    let flags := if noPending then flags0
                 else flags0 ||| KeyExchangeMessage.SIMULTAENOUS_INITIATE_FLAG
    let trMid : List StoreEvent := if noPending then [.getIdentityKeyPairEv] else []
    let record1 := if sessionRecord.isFresh then sessionRecord
                   else sessionRecord.archiveCurrentState
    let s1 := RatchetingSession.initializeSession record1.sessionState
                (min message.maxVersion CiphertextMessage.CURRENT_VERSION)
                (.symmetric parameters)
    let record2 := { record1 with sessionState := s1, fresh := false }
    let st1 := st.storeSession addr record2
    let st2 := st1.saveIdentity addr.name message.identityKey
    let baseKeySignature := crypto.calculateSignature parameters.ourIdentityKey.privateKey
                              parameters.ourBaseKey.publicKey.serialize
    (.ok (KeyExchangeMessage.create record2.sessionState.sessionVersion message.sequence flags
            parameters.ourBaseKey.publicKey baseKeySignature
            parameters.ourRatchetKey.publicKey parameters.ourIdentityKey.publicKey),
     st2,
     [.loadSessionEv addr] ++ trMid ++
       [.storeSessionEv addr, .saveIdentityEv addr.name message.identityKey])

/-- SessionBuilder::processResponse (source lines 276-313). -/
def SessionBuilder.processResponse (crypto : Crypto) (addr : AxolotlAddress)
    (message : KeyExchangeMessage) (st : Stores) :
    Except WhisperError Unit × Stores × List StoreEvent :=
  let sessionRecord := st.loadSession addr
  let sessionState := sessionRecord.sessionState
  let hasPendingKeyExchange := sessionState.hasPendingKeyExchange
  let isSimultaneousInitiateResponse := message.isResponseForSimultaneousInitiate
  if hasPendingKeyExchange = false ∨
     sessionState.getPendingKeyExchangeSequence ≠ message.sequence then
    if isSimultaneousInitiateResponse = false then
      (.error (.staleKeyExchange ""), st, [.loadSessionEv addr])
    else
      (.ok (), st, [.loadSessionEv addr])
  else
    let parameters : SymmetricAxolotlParameters :=
      { ourBaseKey := sessionState.getPendingKeyExchangeBaseKey
        ourRatchetKey := sessionState.getPendingKeyExchangeRatchetKey
        ourIdentityKey := sessionState.getPendingKeyExchangeIdentityKey
        theirBaseKey := message.baseKey
        theirRatchetKey := message.ratchetKey
        theirIdentityKey := message.identityKey }
    let record1 := if sessionRecord.isFresh then sessionRecord
                   else sessionRecord.archiveCurrentState
    let s1 := RatchetingSession.initializeSession record1.sessionState
                (min message.maxVersion CiphertextMessage.CURRENT_VERSION)
                (.symmetric parameters)
    let record2 := { record1 with sessionState := s1, fresh := false }
    if 3 ≤ record2.sessionState.sessionVersion ∧
       crypto.verifySignature message.identityKey.publicKey message.baseKey.serialize
         message.baseKeySignature = false then
      (.error (.invalidKey "Base key signature doesn't match!"), st, [.loadSessionEv addr])
    else
      let st1 := st.storeSession addr record2
      let st2 := st1.saveIdentity addr.name message.identityKey
      (.ok (), st2,
       [.loadSessionEv addr, .storeSessionEv addr,
        .saveIdentityEv addr.name message.identityKey])

/-- SessionBuilder::process(KeyExchangeMessage) (source lines 196-208):
trust check, then dispatch on the INITIATE flag.  The response path
returns none where the C++ returns a default-constructed frame. -/
def SessionBuilder.processKeyExchangeMessage (crypto : Crypto) (addr : AxolotlAddress)
    (message : KeyExchangeMessage) (freshBaseKey freshRatchetKey : ECKeyPair)
    (st : Stores) :
    Except WhisperError (Option KeyExchangeMessage) × Stores × List StoreEvent :=
  let tq : StoreEvent := .isTrustedIdentityEv addr.name message.identityKey
  if st.isTrustedIdentity addr.name message.identityKey = false then
    (.error (.untrustedIdentity ("Untrusted identity: " ++ addr.name)), st, [tq])
  else if message.isInitiate then
    match SessionBuilder.processInitiate crypto addr message freshBaseKey freshRatchetKey st with
    | (.error e, st1, tr) => (.error e, st1, tq :: tr)
    | (.ok response, st1, tr) => (.ok (some response), st1, tq :: tr)
  else
    match SessionBuilder.processResponse crypto addr message st with
    | (.error e, st1, tr) => (.error e, st1, tq :: tr)
    | (.ok (), st1, tr) => (.ok none, st1, tq :: tr)

/-- SessionBuilder::process() (source lines 210-225), the outbound
interactive initiate.  The random sequence and the two fresh keypairs
are explicit arguments. -/
def SessionBuilder.processInitiateOutbound (crypto : Crypto) (addr : AxolotlAddress)
    (sequence : Nat) (baseKey ratchetKey : ECKeyPair) (st : Stores) :
    KeyExchangeMessage × Stores × List StoreEvent :=
  let flags := KeyExchangeMessage.INITIATE_FLAG
  let identityKey := st.identityKeyPair
  let baseKeySignature := crypto.calculateSignature identityKey.privateKey
                            baseKey.publicKey.serialize
  let sessionRecord := st.loadSession addr
  let s1 := { sessionRecord.sessionState with
    pendingKeyExchange := some
      { sequence := sequence, baseKey := baseKey, ratchetKey := ratchetKey,
        identityKey := identityKey } }
  let record1 := { sessionRecord with sessionState := s1, fresh := false }
  let st1 := st.storeSession addr record1
  (KeyExchangeMessage.create 2 sequence flags baseKey.publicKey baseKeySignature
     ratchetKey.publicKey identityKey.publicKey,
   st1,
   [.getIdentityKeyPairEv, .loadSessionEv addr, .storeSessionEv addr])

/-! ## Concrete fixtures (used by the closed evaluation theorems) -/

/-- The local identity keypair of the example store. -/
def exIdPairLocal : IdentityKeyPair := ⟨⟨⟨[20]⟩⟩, ⟨[21]⟩⟩

/-- A remote identity key. -/
def exIdKeyA : IdentityKey := ⟨⟨[10]⟩⟩

/-- A different remote identity key. -/
def exIdKeyB : IdentityKey := ⟨⟨[11]⟩⟩

/-- Signed pre-key pair stored under id 7. -/
def exSignedPreKey : ECKeyPair := ⟨⟨[30]⟩, ⟨[31]⟩⟩

/-- One-time pre-key pair stored under id 11. -/
def exOneTimeKey : ECKeyPair := ⟨⟨[32]⟩, ⟨[33]⟩⟩

/-- A fresh base keypair. -/
def exBaseKP : ECKeyPair := ⟨⟨[34]⟩, ⟨[35]⟩⟩

/-- A fresh ratchet keypair. -/
def exRatchetKP : ECKeyPair := ⟨⟨[36]⟩, ⟨[37]⟩⟩

/-- The remote address of the examples. -/
def exAddr : AxolotlAddress := ⟨"alice", 1⟩

/-- A crypto record whose signature verification always succeeds. -/
def cryptoYes : Crypto := ⟨fun _ _ _ => true, fun k m => k.bytes ++ m⟩

/-- A crypto record whose signature verification always fails. -/
def cryptoNo : Crypto := ⟨fun _ _ _ => false, fun k m => k.bytes ++ m⟩

/-- Example store: pre-keys 11 and MAX_VALUE, signed pre-key 7, nothing
pinned, no sessions. -/
def exStores : Stores :=
  { sessions := []
    preKeys := [(11, exOneTimeKey), (Medium.MAX_VALUE, exOneTimeKey)]
    signedPreKeys := [(7, exSignedPreKey)]
    identityKeyPair := exIdPairLocal
    localRegistrationId := 5
    trustedIdentities := [] }

/-- Example store with exIdKeyA pinned for "alice". -/
def exStoresPinned : Stores := { exStores with trustedIdentities := [("alice", exIdKeyA)] }

/-- A v3 first message referencing signed pre-key 7 and one-time pre-key 11. -/
def exMsgV3 : PreKeyWhisperMessage :=
  { messageVersion := 3, registrationId := 42, preKeyId := 11, signedPreKeyId := 7
    baseKey := ⟨[1, 2, 3]⟩, identityKey := exIdKeyA }

/-- The same v3 message with the MAX_VALUE sentinel as pre-key id. -/
def exMsgV3Max : PreKeyWhisperMessage := { exMsgV3 with preKeyId := Medium.MAX_VALUE }

/-- A v2 message referencing pre-key id 13, which is absent from the
example stores. -/
def exMsgV2Miss : PreKeyWhisperMessage :=
  { exMsgV3 with messageVersion := 2, preKeyId := 13 }

/-- A session record with a pending key exchange of sequence 9. -/
def exRecPending : SessionRecord :=
  { sessionState := { pendingKeyExchange := some ⟨9, exBaseKP, exRatchetKP, exIdPairLocal⟩ } }

/-- Example store holding exRecPending for the example address, exIdKeyA
pinned. -/
def exStoresPending : Stores :=
  { exStores with sessions := [(exAddr, exRecPending)]
                  trustedIdentities := [("alice", exIdKeyA)] }

/-- A RESPONSE-flagged key-exchange message with sequence 9. -/
def exKemResponse : KeyExchangeMessage :=
  { version := 3, maxVersion := 3, sequence := 9, flags := KeyExchangeMessage.RESPONSE_FLAG,
    baseKey := ⟨[4]⟩, baseKeySignature := [9, 9], ratchetKey := ⟨[5]⟩,
    identityKey := exIdKeyA }

/-- A pre-key bundle with both keys present. -/
def exBundle : PreKeyBundle :=
  { registrationId := 42, deviceId := 1, preKeyId := 11, preKey := ⟨[40]⟩,
    signedPreKeyId := 7, signedPreKey := ⟨[41]⟩, signedPreKeySignature := [9],
    identityKey := exIdKeyA }

/-! ## Association-list and store lemmas -/

theorem alookup_aupdate_self {α β : Type} [DecidableEq α] (a : α) (b : β)
    (l : List (α × β)) : alookup a (aupdate a b l) = some b := by
  induction l with
  | nil => simp [alookup, aupdate]
  | cons hd tl ih =>
    obtain ⟨x, b0⟩ := hd
    by_cases hx : x = a <;> simp [alookup, aupdate, hx, ih]

theorem aupdate_idem {α β : Type} [DecidableEq α] (a : α) (b : β)
    (l : List (α × β)) : aupdate a b (aupdate a b l) = aupdate a b l := by
  induction l with
  | nil => simp [aupdate]
  | cons hd tl ih =>
    obtain ⟨x, b0⟩ := hd
    by_cases hx : x = a <;> simp [aupdate, hx, ih]

theorem aupdate_of_alookup_eq {α β : Type} [DecidableEq α] (a : α) (b : β)
    (l : List (α × β)) (h : alookup a l = some b) : aupdate a b l = l := by
  induction l with
  | nil => simp [alookup] at h
  | cons hd tl ih =>
    obtain ⟨x, b0⟩ := hd
    by_cases hx : x = a
    · subst hx
      simp [alookup] at h
      simp [aupdate, h]
    · simp [alookup, hx] at h
      simp [aupdate, hx, ih h]

theorem Stores.isTrustedIdentity_saveIdentity_self (st : Stores) (name : String)
    (key : IdentityKey) : (st.saveIdentity name key).isTrustedIdentity name key = true := by
  simp [Stores.isTrustedIdentity, Stores.saveIdentity, alookup_aupdate_self]

theorem Stores.saveIdentity_idem (st : Stores) (name : String) (key : IdentityKey) :
    (st.saveIdentity name key).saveIdentity name key = st.saveIdentity name key := by
  simp [Stores.saveIdentity, aupdate_idem]

theorem Stores.saveIdentity_of_pinned (st : Stores) (name : String) (key : IdentityKey)
    (h : alookup name st.trustedIdentities = some key) : st.saveIdentity name key = st := by
  simp [Stores.saveIdentity, aupdate_of_alookup_eq _ _ _ h]

theorem Stores.loadSession_storeSession_self (st : Stores) (addr : AxolotlAddress)
    (record : SessionRecord) : (st.storeSession addr record).loadSession addr = record := by
  simp [Stores.loadSession, Stores.storeSession, alookup_aupdate_self]

/-! ## Inversion lemmas for the v3 inbound path -/

theorem processV3Finish_ok (record : SessionRecord) (message : PreKeyWhisperMessage)
    (st : Stores) (ourSignedPreKey : ECKeyPair) (oneTimePreKey : Option ECKeyPair)
    (tr : List StoreEvent) (r : Int) (record' : SessionRecord) (st' : Stores)
    (tr' : List StoreEvent)
    (h : SessionBuilder.processV3Finish record message st ourSignedPreKey oneTimePreKey tr =
      (.ok r, record', st', tr')) :
    st' = st ∧
    record'.hasSessionState message.messageVersion message.baseKey.serialize = true := by
  rw [SessionBuilder.processV3Finish] at h
  split at h <;>
  · simp only [Prod.mk.injEq, Except.ok.injEq] at h
    obtain ⟨-, hrec, hst, -⟩ := h
    refine ⟨hst.symm, ?_⟩
    rw [← hrec]
    simp [SessionRecord.hasSessionState, SessionState.matchesState,
          RatchetingSession.initializeSession]

theorem processV3_ok (record : SessionRecord) (message : PreKeyWhisperMessage)
    (st : Stores) (r : Int) (record' : SessionRecord) (st' : Stores)
    (tr' : List StoreEvent)
    (h : SessionBuilder.processV3 record message st = (.ok r, record', st', tr')) :
    st' = st ∧
    record'.hasSessionState message.messageVersion message.baseKey.serialize = true := by
  rw [SessionBuilder.processV3] at h
  split at h
  case isTrue hg =>
    simp only [Prod.mk.injEq, Except.ok.injEq] at h
    obtain ⟨-, hrec, hst, -⟩ := h
    exact ⟨hst.symm, hrec ▸ hg⟩
  case isFalse hg =>
    split at h
    case h_1 => simp at h
    case h_2 spk hspk =>
      split at h
      · split at h
        · simp at h
        · exact processV3Finish_ok _ _ _ _ _ _ _ _ _ _ h
      · exact processV3Finish_ok _ _ _ _ _ _ _ _ _ _ h

/-! ## Claim C1: the trust check comes first in every inbound entry point -/

/-- C1: for each of the three entry points that receive a remote identity
key (the PreKeyWhisperMessage path, the PreKeyBundle path, and the
KeyExchangeMessage path), if isTrustedIdentity answers false for the
presented key — in particular when a key different from the pinned one is
presented — the call fails with UntrustedIdentity, the stores are
unchanged, and the trace shows no store read or write besides the trust
query itself. -/
theorem c1_trust_check_first (crypto : Crypto) (addr : AxolotlAddress) (st : Stores)
    (record : SessionRecord) (pkMsg : PreKeyWhisperMessage) (bundle : PreKeyBundle)
    (kem : KeyExchangeMessage) (ourBaseKey freshBaseKey freshRatchetKey : ECKeyPair)
    (h1 : st.isTrustedIdentity addr.name pkMsg.identityKey = false)
    (h2 : st.isTrustedIdentity addr.name bundle.identityKey = false)
    (h3 : st.isTrustedIdentity addr.name kem.identityKey = false) :
    SessionBuilder.processPreKeyWhisperMessage addr record pkMsg st =
      (.error (.untrustedIdentity ("Untrusted identity: " ++ addr.name)), record, st,
       [.isTrustedIdentityEv addr.name pkMsg.identityKey]) ∧
    SessionBuilder.processPreKeyBundle crypto addr bundle ourBaseKey st =
      (.error (.untrustedIdentity ("Untrusted identity: " ++ addr.name)), st,
       [.isTrustedIdentityEv addr.name bundle.identityKey]) ∧
    SessionBuilder.processKeyExchangeMessage crypto addr kem freshBaseKey freshRatchetKey st =
      (.error (.untrustedIdentity ("Untrusted identity: " ++ addr.name)), st,
       [.isTrustedIdentityEv addr.name kem.identityKey]) := by
  refine ⟨?_, ?_, ?_⟩
  · rw [SessionBuilder.processPreKeyWhisperMessage, if_pos h1]
  · rw [SessionBuilder.processPreKeyBundle, if_pos h2]
  · rw [SessionBuilder.processKeyExchangeMessage, if_pos h3]

/-- Witness for C1: a pinned key exIdKeyA and a presented key exIdKeyB
that differs from it. -/
theorem c1_trust_check_first_witness :
    SessionBuilder.processPreKeyWhisperMessage exAddr {}
        { exMsgV3 with identityKey := exIdKeyB } exStoresPinned =
      (.error (.untrustedIdentity "Untrusted identity: alice"), {}, exStoresPinned,
       [.isTrustedIdentityEv "alice" exIdKeyB]) ∧
    SessionBuilder.processPreKeyBundle cryptoYes exAddr
        { exBundle with identityKey := exIdKeyB } exBaseKP exStoresPinned =
      (.error (.untrustedIdentity "Untrusted identity: alice"), exStoresPinned,
       [.isTrustedIdentityEv "alice" exIdKeyB]) ∧
    SessionBuilder.processKeyExchangeMessage cryptoYes exAddr
        { exKemResponse with identityKey := exIdKeyB } exBaseKP exRatchetKP exStoresPinned =
      (.error (.untrustedIdentity "Untrusted identity: alice"), exStoresPinned,
       [.isTrustedIdentityEv "alice" exIdKeyB]) :=
  c1_trust_check_first cryptoYes exAddr exStoresPinned {}
    { exMsgV3 with identityKey := exIdKeyB } { exBundle with identityKey := exIdKeyB }
    { exKemResponse with identityKey := exIdKeyB } exBaseKP exBaseKP exRatchetKP
    rfl rfl rfl

/-! ## Claim C2: duplicate v3 first-message establishment is idempotent -/

/-- C2: after a first successful process(record, preKeyWhisperMessage) on a
v3 message, a second invocation on the resulting record and stores with a
v3 message carrying the same base key (and the same identity key) returns
the absent sentinel -1, leaves the session record exactly as the first
invocation installed it, and leaves the stores unchanged; in particular
the consumed one-time pre-key id was returned only by the first
invocation. -/
theorem c2_duplicate_v3_idempotent (addr : AxolotlAddress)
    (record record₁ : SessionRecord) (message message' : PreKeyWhisperMessage)
    (st st₁ : Stores) (r₁ : Int) (tr₁ : List StoreEvent)
    (hv : message.messageVersion = 3)
    (hfirst : SessionBuilder.processPreKeyWhisperMessage addr record message st =
      (.ok r₁, record₁, st₁, tr₁))
    (hv' : message'.messageVersion = 3)
    (hbk : message'.baseKey = message.baseKey)
    (hid : message'.identityKey = message.identityKey) :
    SessionBuilder.processPreKeyWhisperMessage addr record₁ message' st₁ =
      (.ok (-1), record₁, st₁,
       [.isTrustedIdentityEv addr.name message'.identityKey,
        .saveIdentityEv addr.name message'.identityKey]) := by
  cases htr : st.isTrustedIdentity addr.name message.identityKey with
  | false =>
    rw [SessionBuilder.processPreKeyWhisperMessage, if_pos htr] at hfirst
    simp at hfirst
  | true =>
    rw [SessionBuilder.processPreKeyWhisperMessage, if_neg (by simp [htr]), hv,
        if_neg (by decide), if_pos rfl] at hfirst
    rcases hp : SessionBuilder.processV3 record message st with ⟨res, recA, stA, trA⟩
    rw [hp] at hfirst
    cases res with
    | error e => simp [SessionBuilder.saveAfterPKWM] at hfirst
    | ok v =>
      rw [SessionBuilder.saveAfterPKWM] at hfirst
      simp only [Prod.mk.injEq, Except.ok.injEq] at hfirst
      obtain ⟨-, hrec, hst, -⟩ := hfirst
      obtain ⟨hstA, hhas⟩ := processV3_ok _ _ _ _ _ _ _ hp
      subst hrec
      subst hstA
      rw [SessionBuilder.processPreKeyWhisperMessage, if_neg ?htrust2]
      case htrust2 =>
        rw [hid, ← hst]
        simp [Stores.isTrustedIdentity_saveIdentity_self]
      rw [hv', if_neg (by decide), if_pos rfl,
          SessionBuilder.processV3, if_pos ?hdup]
      case hdup =>
        rw [hv', hbk, ← hv]
        exact hhas
      rw [SessionBuilder.saveAfterPKWM]
      rw [hid, ← hst, Stores.saveIdentity_idem]
      simp

/-- Witness for C2: a concrete first establishment (which returns pre-key
id 11) followed by the identical message. -/
theorem c2_duplicate_v3_idempotent_witness :
    SessionBuilder.processPreKeyWhisperMessage exAddr
        (SessionBuilder.processPreKeyWhisperMessage exAddr {} exMsgV3 exStores).2.1
        exMsgV3
        (SessionBuilder.processPreKeyWhisperMessage exAddr {} exMsgV3 exStores).2.2.1 =
      (.ok (-1),
       (SessionBuilder.processPreKeyWhisperMessage exAddr {} exMsgV3 exStores).2.1,
       (SessionBuilder.processPreKeyWhisperMessage exAddr {} exMsgV3 exStores).2.2.1,
       [.isTrustedIdentityEv "alice" exIdKeyA, .saveIdentityEv "alice" exIdKeyA]) :=
  c2_duplicate_v3_idempotent exAddr {}
    (SessionBuilder.processPreKeyWhisperMessage exAddr {} exMsgV3 exStores).2.1
    exMsgV3 exMsgV3 exStores
    (SessionBuilder.processPreKeyWhisperMessage exAddr {} exMsgV3 exStores).2.2.1
    11
    (SessionBuilder.processPreKeyWhisperMessage exAddr {} exMsgV3 exStores).2.2.2
    rfl rfl rfl rfl rfl

/-! ## Claim C3: bad base-key signature in processResponse is not persisted -/

/-- C3: in processResponse with a matching pending exchange, when the
negotiated session version (min of the message's maxVersion and
CURRENT_VERSION = 3) is at least 3 and the message's base-key signature
does not verify under the message's identity key, the call fails with
InvalidKey "Base key signature doesn't match!", the stores are returned
exactly as at entry, and the trace holds no storeSession and no
saveIdentity, so the failed session is not persisted. -/
theorem c3_response_bad_signature (crypto : Crypto) (addr : AxolotlAddress)
    (message : KeyExchangeMessage) (st : Stores) (p : PendingKeyExchange)
    (hpend : (st.loadSession addr).sessionState.pendingKeyExchange = some p)
    (hseq : p.sequence = message.sequence)
    (hmax : 3 ≤ message.maxVersion)
    (hsig : crypto.verifySignature message.identityKey.publicKey message.baseKey.serialize
      message.baseKeySignature = false) :
    SessionBuilder.processResponse crypto addr message st =
      (.error (.invalidKey "Base key signature doesn't match!"), st, [.loadSessionEv addr]) ∧
    (SessionBuilder.processResponse crypto addr message st).2.2.filter
      StoreEvent.isMutation = [] := by
  have hmain : SessionBuilder.processResponse crypto addr message st =
      (.error (.invalidKey "Base key signature doesn't match!"), st,
       [.loadSessionEv addr]) := by
    rw [SessionBuilder.processResponse]
    simp only [SessionState.hasPendingKeyExchange, SessionState.getPendingKeyExchangeSequence,
               hpend, Option.isSome_some, Option.map_some', Option.getD_some, hseq]
    rw [if_neg (by simp)]
    simp only [RatchetingSession.initializeSession]
    rw [if_pos ?hcond]
    case hcond =>
      refine ⟨?_, hsig⟩
      simpa [CiphertextMessage.CURRENT_VERSION] using le_min hmax (le_refl 3)
  exact ⟨hmain, by rw [hmain]; rfl⟩

/-- Witness for C3: the pending-exchange fixture with an always-failing
verifier and a matching sequence. -/
theorem c3_response_bad_signature_witness :
    SessionBuilder.processResponse cryptoNo exAddr exKemResponse exStoresPending =
      (.error (.invalidKey "Base key signature doesn't match!"), exStoresPending,
       [.loadSessionEv exAddr]) ∧
    (SessionBuilder.processResponse cryptoNo exAddr exKemResponse exStoresPending).2.2.filter
      StoreEvent.isMutation = [] :=
  c3_response_bad_signature cryptoNo exAddr exKemResponse exStoresPending
    ⟨9, exBaseKP, exRatchetKP, exIdPairLocal⟩ rfl rfl (by decide) rfl

/-! ## Claim C4: bad signed-pre-key signature in the bundle path -/

/-- C4: when the bundle's signed pre-key is present (nonempty
serialization) but the signed-pre-key signature check fails, and the
identity is trusted, process(preKeyBundle) fails with InvalidKey
"Invalid signature on device key!", performs no store mutation, and
returns the stores exactly as at entry. -/
theorem c4_bundle_bad_signature (crypto : Crypto) (addr : AxolotlAddress)
    (bundle : PreKeyBundle) (ourBaseKey : ECKeyPair) (st : Stores)
    (htrust : st.isTrustedIdentity addr.name bundle.identityKey = true)
    (hspk : bundle.signedPreKey.serialize ≠ [])
    (hsig : crypto.verifySignature bundle.signedPreKey
      bundle.identityKey.publicKey.serialize bundle.signedPreKeySignature = false) :
    SessionBuilder.processPreKeyBundle crypto addr bundle ourBaseKey st =
      (.error (.invalidKey "Invalid signature on device key!"), st,
       [.isTrustedIdentityEv addr.name bundle.identityKey]) ∧
    (SessionBuilder.processPreKeyBundle crypto addr bundle ourBaseKey st).2.2.filter
      StoreEvent.isMutation = [] := by
  have hmain : SessionBuilder.processPreKeyBundle crypto addr bundle ourBaseKey st =
      (.error (.invalidKey "Invalid signature on device key!"), st,
       [.isTrustedIdentityEv addr.name bundle.identityKey]) := by
    rw [SessionBuilder.processPreKeyBundle, if_neg (by simp [htrust]), if_pos ⟨hspk, hsig⟩]
  exact ⟨hmain, by rw [hmain]; rfl⟩

/-- Witness for C4: the example bundle with an always-failing verifier on
a store with nothing pinned. -/
theorem c4_bundle_bad_signature_witness :
    SessionBuilder.processPreKeyBundle cryptoNo exAddr exBundle exBaseKP exStores =
      (.error (.invalidKey "Invalid signature on device key!"), exStores,
       [.isTrustedIdentityEv "alice" exIdKeyA]) ∧
    (SessionBuilder.processPreKeyBundle cryptoNo exAddr exBundle exBaseKP exStores).2.2.filter
      StoreEvent.isMutation = [] :=
  c4_bundle_bad_signature cryptoNo exAddr exBundle exBaseKP exStores rfl (by decide) rfl

/-! ## Claim C6: v2 message without a one-time pre-key id -/

/-- C6: a version-2 PreKeyWhisperMessage whose pre-key id is absent
(negative, per the source's representation) fails with InvalidKeyId
"V2 message requires one time prekey id!"; the session record and the
stores are returned exactly as at entry, so no session-state mutation
precedes the failure. -/
theorem c6_v2_missing_prekey_id (addr : AxolotlAddress) (record : SessionRecord)
    (message : PreKeyWhisperMessage) (st : Stores)
    (htrust : st.isTrustedIdentity addr.name message.identityKey = true)
    (hv : message.messageVersion = 2)
    (hneg : message.preKeyId < 0) :
    SessionBuilder.processPreKeyWhisperMessage addr record message st =
      (.error (.invalidKeyId "V2 message requires one time prekey id!"), record, st,
       [.isTrustedIdentityEv addr.name message.identityKey]) := by
  rw [SessionBuilder.processPreKeyWhisperMessage, if_neg (by simp [htrust]), hv, if_pos rfl,
      SessionBuilder.processV2, if_pos hneg, SessionBuilder.saveAfterPKWM]

/-- Witness for C6: a v2 message with pre-key id -1 on the unpinned
example store. -/
theorem c6_v2_missing_prekey_id_witness :
    SessionBuilder.processPreKeyWhisperMessage exAddr {}
        { exMsgV3 with messageVersion := 2, preKeyId := -1 } exStores =
      (.error (.invalidKeyId "V2 message requires one time prekey id!"), {}, exStores,
       [.isTrustedIdentityEv "alice" exIdKeyA]) :=
  c6_v2_missing_prekey_id exAddr {} { exMsgV3 with messageVersion := 2, preKeyId := -1 }
    exStores rfl rfl (by decide)

/-! ## Claim C5: the v3 one-time pre-key sentinel handling -/

/-- C5 counterexample: at preKeyId = MAX_VALUE the v3 path DOES query the
pre-key store (the guard in the source is preKeyId >= 0, which the
sentinel satisfies) and the loaded one-time pre-key IS set in the Bob
parameters, contradicting the claim that no lookup happens and the key
is omitted for the sentinel. -/
theorem c5_sentinel_counterexample :
    exMsgV3Max.preKeyId = Medium.MAX_VALUE ∧
    (SessionBuilder.processV3 {} exMsgV3Max exStores).2.2.2.any
      StoreEvent.isLoadPreKey = true ∧
    (SessionBuilder.processV3 {} exMsgV3Max exStores).2.1.sessionState.bobOneTimePreKey =
      some exOneTimeKey :=
  ⟨rfl, rfl, rfl⟩

/-- C5 amended: in the v3 path (duplicate guard passed, signed pre-key
loadable), the one-time pre-key is loaded from the pre-key store and set
in the Bob parameters exactly when message.preKeyId is nonnegative —
including when it equals the MAX_VALUE sentinel — and only for a
negative preKeyId is the store lookup skipped and the key omitted. -/
theorem c5_v3_one_time_prekey_iff_nonneg (record : SessionRecord)
    (message : PreKeyWhisperMessage) (st : Stores) (spk : ECKeyPair)
    (hg : record.hasSessionState message.messageVersion message.baseKey.serialize = false)
    (hspk : st.loadSignedPreKey message.signedPreKeyId = .ok spk) :
    (message.preKeyId < 0 →
      (SessionBuilder.processV3 record message st).2.2.2.any
        StoreEvent.isLoadPreKey = false ∧
      (SessionBuilder.processV3 record message st).2.1.sessionState.bobOneTimePreKey =
        none) ∧
    (0 ≤ message.preKeyId → ∀ kp : ECKeyPair, st.loadPreKey message.preKeyId = .ok kp →
      (SessionBuilder.processV3 record message st).2.2.2.any
        StoreEvent.isLoadPreKey = true ∧
      (SessionBuilder.processV3 record message st).2.1.sessionState.bobOneTimePreKey =
        some kp) := by
  constructor
  · intro hneg
    rw [SessionBuilder.processV3, if_neg (by simp [hg])]
    simp only [hspk]
    rw [if_neg (by omega), SessionBuilder.processV3Finish]
    by_cases hmv : message.preKeyId ≠ Medium.MAX_VALUE
    · rw [if_pos hmv]
      exact ⟨rfl, rfl⟩
    · rw [if_neg hmv]
      exact ⟨rfl, rfl⟩
  · intro hpos kp hkp
    rw [SessionBuilder.processV3, if_neg (by simp [hg])]
    simp only [hspk]
    rw [if_pos hpos]
    simp only [hkp]
    rw [SessionBuilder.processV3Finish]
    by_cases hmv : message.preKeyId ≠ Medium.MAX_VALUE
    · rw [if_pos hmv]
      exact ⟨rfl, rfl⟩
    · rw [if_neg hmv]
      exact ⟨rfl, rfl⟩

/-- Witness for C5's amended claim: the negative branch with preKeyId -1
(no lookup, key omitted) and the nonnegative branch with preKeyId 11
(lookup performed, key set). -/
theorem c5_v3_one_time_prekey_iff_nonneg_witness :
    ((SessionBuilder.processV3 {} { exMsgV3 with preKeyId := -1 } exStores).2.2.2.any
       StoreEvent.isLoadPreKey = false ∧
     (SessionBuilder.processV3 {} { exMsgV3 with preKeyId := -1 }
        exStores).2.1.sessionState.bobOneTimePreKey = none) ∧
    ((SessionBuilder.processV3 {} exMsgV3 exStores).2.2.2.any
       StoreEvent.isLoadPreKey = true ∧
     (SessionBuilder.processV3 {} exMsgV3
        exStores).2.1.sessionState.bobOneTimePreKey = some exOneTimeKey) :=
  ⟨(c5_v3_one_time_prekey_iff_nonneg {} { exMsgV3 with preKeyId := -1 } exStores
      exSignedPreKey rfl rfl).1 (by decide),
   (c5_v3_one_time_prekey_iff_nonneg {} exMsgV3 exStores
      exSignedPreKey rfl rfl).2 (by decide) exOneTimeKey rfl⟩

/-! ## Claim C7: v2 message whose one-time pre-key is gone from the store -/

theorem Stores.loadPreKey_of_not_contains (st : Stores) (preKeyId : Int)
    (h : st.containsPreKey preKeyId = false) :
    st.loadPreKey preKeyId = .error (.invalidKeyId "No such prekeyRecord!") := by
  cases halk : alookup preKeyId st.preKeys with
  | none => rw [Stores.loadPreKey, halk]
  | some kp =>
    rw [Stores.containsPreKey, halk] at h
    simp at h

/-- C7: for a trusted v2 message whose (nonnegative) pre-key id is no
longer in the pre-key store: if a session already exists for the remote
address, the call returns the absent sentinel -1 with the session record
untouched and no session-store change (and, when the identity was
already pinned, the stores are bit-for-bit unchanged); if no session
exists, the call fails with InvalidKeyId, record and stores unchanged. -/
theorem c7_v2_missing_prekey (addr : AxolotlAddress) (record : SessionRecord)
    (message : PreKeyWhisperMessage) (st : Stores)
    (htrust : st.isTrustedIdentity addr.name message.identityKey = true)
    (hv : message.messageVersion = 2)
    (hpos : 0 ≤ message.preKeyId)
    (hmiss : st.containsPreKey message.preKeyId = false) :
    (st.containsSession addr = true →
      SessionBuilder.processPreKeyWhisperMessage addr record message st =
        (.ok (-1), record, st.saveIdentity addr.name message.identityKey,
         [.isTrustedIdentityEv addr.name message.identityKey,
          .containsPreKeyEv message.preKeyId, .containsSessionEv addr,
          .saveIdentityEv addr.name message.identityKey])) ∧
    (st.containsSession addr = true →
      alookup addr.name st.trustedIdentities = some message.identityKey →
      SessionBuilder.processPreKeyWhisperMessage addr record message st =
        (.ok (-1), record, st,
         [.isTrustedIdentityEv addr.name message.identityKey,
          .containsPreKeyEv message.preKeyId, .containsSessionEv addr,
          .saveIdentityEv addr.name message.identityKey])) ∧
    (st.containsSession addr = false →
      SessionBuilder.processPreKeyWhisperMessage addr record message st =
        (.error (.invalidKeyId "No such prekeyRecord!"), record, st,
         [.isTrustedIdentityEv addr.name message.identityKey,
          .containsPreKeyEv message.preKeyId, .containsSessionEv addr,
          .loadPreKeyEv message.preKeyId])) := by
  have hmain : ∀ hcs : st.containsSession addr = true,
      SessionBuilder.processPreKeyWhisperMessage addr record message st =
        (.ok (-1), record, st.saveIdentity addr.name message.identityKey,
         [.isTrustedIdentityEv addr.name message.identityKey,
          .containsPreKeyEv message.preKeyId, .containsSessionEv addr,
          .saveIdentityEv addr.name message.identityKey]) := by
    intro hcs
    rw [SessionBuilder.processPreKeyWhisperMessage, if_neg (by simp [htrust]), hv,
        if_pos rfl, SessionBuilder.processV2, if_neg (by omega), if_pos hmiss,
        if_pos hcs, SessionBuilder.saveAfterPKWM]
    rfl
  refine ⟨hmain, ?_, ?_⟩
  · intro hcs hpin
    rw [hmain hcs, Stores.saveIdentity_of_pinned st addr.name message.identityKey hpin]
  · intro hcs
    rw [SessionBuilder.processPreKeyWhisperMessage, if_neg (by simp [htrust]), hv,
        if_pos rfl, SessionBuilder.processV2, if_neg (by omega), if_pos hmiss,
        if_neg (by simp [hcs]), SessionBuilder.processV2Finish,
        Stores.loadPreKey_of_not_contains st message.preKeyId hmiss,
        SessionBuilder.saveAfterPKWM]
    rfl

/-- Witness for C7: pre-key id 13 is absent from the example stores; with
the pending-session fixture (identity pinned) the call returns -1 and
leaves everything unchanged, and with the empty-session fixture it fails
InvalidKeyId. -/
theorem c7_v2_missing_prekey_witness :
    SessionBuilder.processPreKeyWhisperMessage exAddr {} exMsgV2Miss exStoresPending =
      (.ok (-1), {}, exStoresPending,
       [.isTrustedIdentityEv "alice" exIdKeyA, .containsPreKeyEv 13,
        .containsSessionEv exAddr, .saveIdentityEv "alice" exIdKeyA]) ∧
    SessionBuilder.processPreKeyWhisperMessage exAddr {} exMsgV2Miss exStores =
      (.error (.invalidKeyId "No such prekeyRecord!"), {}, exStores,
       [.isTrustedIdentityEv "alice" exIdKeyA, .containsPreKeyEv 13,
        .containsSessionEv exAddr, .loadPreKeyEv 13]) :=
  ⟨(c7_v2_missing_prekey exAddr {} exMsgV2Miss exStoresPending rfl rfl (by decide)
      rfl).2.1 rfl rfl,
   (c7_v2_missing_prekey exAddr {} exMsgV2Miss exStores rfl rfl (by decide)
      rfl).2.2 rfl⟩

/-! ## Claim C8: stale key-exchange responses -/

/-- C8: when processResponse runs with no pending key exchange or with a
pending sequence different from the message's, then: if the message is
not flagged as a response to a simultaneous initiate the call fails with
StaleKeyExchange, and if it is so flagged the call returns silently; in
both cases the stores are returned exactly as at entry and the trace
shows the single loadSession read and no mutation. -/
theorem c8_stale_response (crypto : Crypto) (addr : AxolotlAddress)
    (message : KeyExchangeMessage) (st : Stores)
    (hstale : (st.loadSession addr).sessionState.hasPendingKeyExchange = false ∨
      (st.loadSession addr).sessionState.getPendingKeyExchangeSequence ≠ message.sequence) :
    (message.isResponseForSimultaneousInitiate = false →
      SessionBuilder.processResponse crypto addr message st =
        (.error (.staleKeyExchange ""), st, [.loadSessionEv addr])) ∧
    (message.isResponseForSimultaneousInitiate = true →
      SessionBuilder.processResponse crypto addr message st =
        (.ok (), st, [.loadSessionEv addr])) := by
  constructor
  · intro hflag
    simp only [SessionBuilder.processResponse]
    rw [if_pos hstale, if_pos hflag]
  · intro hflag
    simp only [SessionBuilder.processResponse]
    rw [if_pos hstale, if_neg (by simp [hflag])]

/-- Witness for C8: the example store has no session, hence no pending
exchange; the plain RESPONSE frame yields StaleKeyExchange and the
SIMULTANEOUS-flagged frame returns silently. -/
theorem c8_stale_response_witness :
    SessionBuilder.processResponse cryptoYes exAddr exKemResponse exStores =
      (.error (.staleKeyExchange ""), exStores, [.loadSessionEv exAddr]) ∧
    SessionBuilder.processResponse cryptoYes exAddr
        { exKemResponse with flags := 6 } exStores =
      (.ok (), exStores, [.loadSessionEv exAddr]) :=
  ⟨(c8_stale_response cryptoYes exAddr exKemResponse exStores (.inl rfl)).1 rfl,
   (c8_stale_response cryptoYes exAddr { exKemResponse with flags := 6 } exStores
      (.inl rfl)).2 rfl⟩

/-! ## Claims C9 and C10: the outbound interactive initiate -/

/-- C9: the parameterless process() returns a KeyExchangeMessage with
version 2, the INITIATE flag, the freshly generated base and ratchet
public keys, and a base-key signature computed under the local identity
private key; and the session record it commits via storeSession carries a
pending key exchange whose sequence equals the sequence of the returned
message. -/
theorem c9_outbound_initiate (crypto : Crypto) (addr : AxolotlAddress) (sequence : Nat)
    (baseKey ratchetKey : ECKeyPair) (st : Stores) :
    (SessionBuilder.processInitiateOutbound crypto addr sequence baseKey ratchetKey st).1 =
      { version := 2, maxVersion := CiphertextMessage.CURRENT_VERSION, sequence := sequence,
        flags := KeyExchangeMessage.INITIATE_FLAG, baseKey := baseKey.publicKey,
        baseKeySignature := crypto.calculateSignature st.identityKeyPair.privateKey
          baseKey.publicKey.serialize,
        ratchetKey := ratchetKey.publicKey,
        identityKey := st.identityKeyPair.publicKey } ∧
    ((SessionBuilder.processInitiateOutbound crypto addr sequence baseKey ratchetKey
        st).2.1.loadSession addr).sessionState.pendingKeyExchange =
      some { sequence := (SessionBuilder.processInitiateOutbound crypto addr sequence baseKey
                ratchetKey st).1.sequence,
             baseKey := baseKey, ratchetKey := ratchetKey,
             identityKey := st.identityKeyPair } := by
  constructor
  · rfl
  · rw [SessionBuilder.processInitiateOutbound]
    simp [Stores.loadSession_storeSession_self, KeyExchangeMessage.create]

/-- C10: the parameterless process() issues no trust query and no
saveIdentity; its trace is exactly one identity-keypair read, one session
load and one storeSession, so the single storeSession is its only store
mutation, and the identity, pre-key and signed-pre-key store components
are left unchanged. -/
theorem c10_outbound_initiate_frame (crypto : Crypto) (addr : AxolotlAddress) (sequence : Nat)
    (baseKey ratchetKey : ECKeyPair) (st : Stores) :
    (SessionBuilder.processInitiateOutbound crypto addr sequence baseKey ratchetKey st).2.2 =
      [.getIdentityKeyPairEv, .loadSessionEv addr, .storeSessionEv addr] ∧
    (SessionBuilder.processInitiateOutbound crypto addr sequence baseKey ratchetKey
        st).2.2.filter StoreEvent.isMutation = [.storeSessionEv addr] ∧
    (SessionBuilder.processInitiateOutbound crypto addr sequence baseKey ratchetKey
        st).2.1.preKeys = st.preKeys ∧
    (SessionBuilder.processInitiateOutbound crypto addr sequence baseKey ratchetKey
        st).2.1.signedPreKeys = st.signedPreKeys ∧
    (SessionBuilder.processInitiateOutbound crypto addr sequence baseKey ratchetKey
        st).2.1.trustedIdentities = st.trustedIdentities ∧
    (SessionBuilder.processInitiateOutbound crypto addr sequence baseKey ratchetKey
        st).2.1.identityKeyPair = st.identityKeyPair ∧
    (SessionBuilder.processInitiateOutbound crypto addr sequence baseKey ratchetKey
        st).2.1.localRegistrationId = st.localRegistrationId :=
  ⟨rfl, rfl, rfl, rfl, rfl, rfl, rfl⟩

end Axolotl
